import Mathlib

/-
Verification of the VibeBeat playback/queue controller
(shallow embedding of src/vibebeat_pyqt.py).

Modelling conventions:
* Python strings are `List Char`; `str.strip`/`str.lower`/substring tests are
  embedded below (`pyStrip`, `pyLower`, `containsSub`).  `Char.toLower` agrees
  with Python `str.lower` on ASCII data.
* The Python dict `musicLibrary` (insertion-ordered) is a `List (Int × Song)`
  with `dictGet` / `dictInsert` (replace-in-place or append) / `dictValues`.
* Each controller operation returns an `Out`: the successor `AppState`, the
  list of commands issued to the media backend (`QMediaPlayer` calls), and the
  list of non-fatal notices (message boxes) shown to the user.
* `playerPresent` models `self.player is not None and MULTIMEDIA_AVAILABLE`
  (the source only constructs a player when the multimedia import succeeds).
  `playerState` models the backend player state, which `QMediaPlayer` updates
  synchronously on `play()` / `pause()`.
* The progress-slider pixel value (computed with Python float division in
  `_on_position_changed` / `_seek_position`) is display-only; the elapsed /
  total time labels, which use pure integer arithmetic, are modelled exactly.
-/

namespace VibeBeat

/-- The `Song` dataclass of the source. -/
structure Song where
  id : Int
  title : List Char
  artist : List Char
  album : List Char
  image : List Char
  audio : List Char
  duration : List Char
  genre : List Char
  year : Int
  liked : Bool
deriving DecidableEq

/-- Commands the controller issues to the external media backend. -/
inductive Cmd where
  | setMedia (audio : List Char)
  | play
  | pause
  | setVolume (v : Int)
  | setPosition (ms : Int)
deriving DecidableEq

/-- Non-fatal notices surfaced to the user (QMessageBox.information calls). -/
inductive Notice where
  | audioUnavailable
deriving DecidableEq

/-- Backend player state (QMediaPlayer.StoppedState / PlayingState / PausedState). -/
inductive PState where
  | stopped
  | playing
  | paused
deriving DecidableEq

/-- Mute-button icon tier chosen by `_set_volume`. -/
inductive MuteIcon where
  | muted
  | low
  | normal
deriving DecidableEq

/-- Backend media status, as far as `_on_media_status` inspects it. -/
inductive MediaStatus where
  | endOfMedia
  | other
deriving DecidableEq

/-- Content of the search-results area:
the "Search for music" prompt (`_show_search_placeholder`),
the "No results for ..." indicator, or a list of song rows. -/
inductive SearchView where
  | prompt
  | noResults (q : List Char)
  | results (l : List Song)
deriving DecidableEq

/-- A user playlist dict `id / name / songs / description`. -/
structure UserPlaylist where
  plId : Int
  name : List Char
  songs : List Int
  description : List Char
deriving DecidableEq

/-- The mutable state of `VibeBeatApp` relevant to the controller. -/
structure AppState where
  musicLibrary : List (Int × Song)
  playlist : List Song
  currentIndex : Int
  isShuffled : Bool
  isRepeated : Bool
  likedSongs : Finset Int
  userPlaylists : List UserPlaylist
  playerPresent : Bool
  playerState : PState
  playerVolume : Int
  sliderVolume : Int
  prevVol : Option Int
  seekingActive : Bool
  likeChecked : Bool
  likeHeart : Bool
  playBtnPause : Bool
  muteIcon : MuteIcon
  trackTitle : List Char
  trackArtist : List Char
  searchView : SearchView
  searchClearVisible : Bool
  currentTimeLabel : List Char
  totalTimeLabel : List Char
deriving DecidableEq

/-- Result of one controller operation: new state, backend commands, notices. -/
structure Out where
  state : AppState
  cmds : List Cmd
  notices : List Notice
deriving DecidableEq

/- ---------- Python string helpers ---------- -/

/-- Python whitespace characters recognised by `str.strip()`. -/
def pySpace (c : Char) : Bool :=
  c == ' ' || c == '\t' || c == '\n' || c == '\r' ||
    c == Char.ofNat 11 || c == Char.ofNat 12

/-- Python `str.strip()`. -/
def pyStrip (s : List Char) : List Char :=
  ((s.dropWhile pySpace).reverse.dropWhile pySpace).reverse

/-- Python `str.lower()` (ASCII case folding). -/
def pyLower (s : List Char) : List Char :=
  s.map Char.toLower

/-- Boolean list-prefix test. -/
def isPref : List Char → List Char → Bool
  | [], _ => true
  | _ :: _, [] => false
  | a :: as, b :: bs => a == b && isPref as bs

/-- Python substring containment `needle in hay`. -/
def containsSub (needle : List Char) : List Char → Bool
  | [] => isPref needle []
  | c :: t => isPref needle (c :: t) || containsSub needle t

/- ---------- Dict helpers (Python insertion-ordered dict) ---------- -/

/-- `d.get(k)`. -/
def dictGet (d : List (Int × Song)) (k : Int) : Option Song :=
  match d with
  | [] => none
  | (k2, v) :: t => if k2 = k then some v else dictGet t k

/-- `d[k] = v`: replaces in place when the key exists, appends otherwise. -/
def dictInsert (d : List (Int × Song)) (k : Int) (v : Song) : List (Int × Song) :=
  match d with
  | [] => [(k, v)]
  | (k2, v2) :: t => if k2 = k then (k, v) :: t else (k2, v2) :: dictInsert t k v

/-- `d.values()` in insertion order. -/
def dictValues (d : List (Int × Song)) : List Song :=
  d.map Prod.snd

/-- `max(d.keys(), default=1000)` as folded by `_upload_song`. -/
def maxKey (d : List (Int × Song)) : Int :=
  d.foldl (fun a p => max a p.fst) 1000

/-- Python list indexing `l[i]` (negative indices count from the end;
out-of-range indexing, an IndexError in Python, yields `none`). -/
def pyGet (l : List Song) (i : Int) : Option Song :=
  if 0 ≤ i then l.get? i.toNat
  else if 0 ≤ (l.length : Int) + i then l.get? (((l.length : Int) + i).toNat)
  else none

/- ---------- Operations ---------- -/

/-- `_play_song(song_id)`. -/
def playSong (st : AppState) (songId : Int) : Out :=
  match dictGet st.musicLibrary songId with
  | none => ⟨st, [], []⟩
  | some song =>
    let st1 := { st with playlist := [song], currentIndex := 0 }
    if st1.playerPresent then
      ⟨{ st1 with
           playerState := PState.playing
           trackTitle := song.title
           trackArtist := song.artist
           likeChecked := decide (songId ∈ st1.likedSongs)
           playBtnPause := true },
        [Cmd.setMedia song.audio, Cmd.play], []⟩
    else
      ⟨{ st1 with
           trackTitle := song.title
           trackArtist := song.artist
           likeChecked := decide (songId ∈ st1.likedSongs)
           playBtnPause := true },
        [], [Notice.audioUnavailable]⟩

/-- `_toggle_play()`. -/
def togglePlay (st : AppState) : Out :=
  if st.playerPresent = false then
    ⟨st, [], [Notice.audioUnavailable]⟩
  else if st.playerState = PState.playing then
    ⟨{ st with playerState := PState.paused }, [Cmd.pause], []⟩
  else
    ⟨{ st with playerState := PState.playing }, [Cmd.play], []⟩

/-- `_prev()`.  The `none` branch of the lookup is a Python IndexError,
unreachable whenever the cursor invariant holds. -/
def prevOp (st : AppState) : Out :=
  if 0 < st.currentIndex then
    let st1 := { st with currentIndex := st.currentIndex - 1 }
    match pyGet st1.playlist st1.currentIndex with
    | some song => playSong st1 song.id
    | none => ⟨st1, [], []⟩
  else ⟨st, [], []⟩

/-- `_next()`.  Same remark about the `none` branch as for `prevOp`. -/
def nextOp (st : AppState) : Out :=
  if st.currentIndex < (st.playlist.length : Int) - 1 then
    let st1 := { st with currentIndex := st.currentIndex + 1 }
    match pyGet st1.playlist st1.currentIndex with
    | some song => playSong st1 song.id
    | none => ⟨st1, [], []⟩
  else ⟨st, [], []⟩

/-- `_toggle_shuffle()`. -/
def toggleShuffle (st : AppState) : Out :=
  ⟨{ st with isShuffled := !st.isShuffled }, [], []⟩

/-- `_toggle_repeat()`. -/
def toggleRepeat (st : AppState) : Out :=
  ⟨{ st with isRepeated := !st.isRepeated }, [], []⟩

/-- `_toggle_like()`. -/
def toggleLike (st : AppState) : Out :=
  if st.currentIndex < 0 ∨ st.playlist = [] then ⟨st, [], []⟩
  else
    match pyGet st.playlist st.currentIndex with
    | none => ⟨st, [], []⟩
    | some song =>
      if song.id ∈ st.likedSongs then
        ⟨{ st with likedSongs := st.likedSongs.erase song.id, likeHeart := false }, [], []⟩
      else
        ⟨{ st with likedSongs := insert song.id st.likedSongs, likeHeart := true }, [], []⟩

/-- `_set_volume(value)`, the volume slider's valueChanged handler. -/
def setVolumeHandler (st : AppState) (value : Int) : Out :=
  let v := max 0 (min 100 value)
  let icon := if v = 0 then MuteIcon.muted else if v < 50 then MuteIcon.low else MuteIcon.normal
  if st.playerPresent then
    ⟨{ st with playerVolume := v, muteIcon := icon }, [Cmd.setVolume v], []⟩
  else
    ⟨{ st with muteIcon := icon }, [], []⟩

/-- `QSlider.setValue`: clamps to the slider range `[0,100]` and fires the
valueChanged signal (wired to `_set_volume`) exactly when the value changes. -/
def setSliderValue (st : AppState) (value : Int) : Out :=
  let v := max 0 (min 100 value)
  if v = st.sliderVolume then ⟨st, [], []⟩
  else setVolumeHandler { st with sliderVolume := v } v

/-- `_toggle_mute()`.  `QMediaPlayer.setVolume` clamps its argument to
`[0,100]`, hence the clamp on the direct player update. -/
def toggleMute (st : AppState) : Out :=
  if st.playerPresent = false then
    let vol := st.sliderVolume
    if vol = 0 then setSliderValue st (st.prevVol.getD 70)
    else setSliderValue { st with prevVol := some vol } 0
  else
    let vol := st.playerVolume
    if vol = 0 then
      let target := st.prevVol.getD 70
      let st1 := { st with playerVolume := max 0 (min 100 target) }
      let o := setSliderValue st1 target
      ⟨o.state, Cmd.setVolume (max 0 (min 100 target)) :: o.cmds, o.notices⟩
    else
      let st1 := { st with prevVol := some vol, playerVolume := 0 }
      let o := setSliderValue st1 0
      ⟨o.state, Cmd.setVolume 0 :: o.cmds, o.notices⟩

/-- `_format_time(ms)`; Python floor division and Lean truncated division
agree here because of the `max 0` guard. -/
def formatTime (ms : Int) : List Char :=
  let secs := max 0 (ms / 1000)
  let m := secs / 60
  let s := secs % 60
  Nat.toDigits 10 m.toNat ++ [':'] ++ (if s < 10 then ['0'] else []) ++ Nat.toDigits 10 s.toNat

/-- `_on_position_changed(pos)`: the elapsed-time label always updates; the
slider pixel value (float-derived, display-only) is not modelled. -/
def onPositionChanged (st : AppState) (pos : Int) : Out :=
  ⟨{ st with currentTimeLabel := formatTime pos }, [], []⟩

/-- `_on_duration_changed(dur)`. -/
def onDurationChanged (st : AppState) (dur : Int) : Out :=
  ⟨{ st with totalTimeLabel := formatTime dur }, [], []⟩

/-- `_on_play_state(state)`. -/
def onPlayState (st : AppState) (s : PState) : Out :=
  ⟨{ st with playBtnPause := st.playerPresent && decide (s = PState.playing) }, [], []⟩

/-- `_on_media_status(status)`. -/
def onMediaStatus (st : AppState) (status : MediaStatus) : Out :=
  if st.playerPresent = false then ⟨st, [], []⟩
  else if status = MediaStatus.endOfMedia ∧ st.isRepeated = true then
    ⟨{ st with playerState := PState.playing }, [Cmd.setPosition 0, Cmd.play], []⟩
  else ⟨st, [], []⟩

/-- `_seeking(active)`. -/
def seekingOp (st : AppState) (active : Bool) : Out :=
  ⟨{ st with seekingActive := active }, [], []⟩

/-- `_seek_position(value)`; `dur` is the duration reported by the backend.
Python computes the target with float division; the integer quotient below
coincides with it on the exact cases and the payload is otherwise unclaimed. -/
def seekPosition (st : AppState) (value dur : Int) : Out :=
  if st.playerPresent = false then ⟨st, [], []⟩
  else ⟨st, [Cmd.setPosition (dur * value / 1000)], []⟩

/-- Does a song match the (already stripped and lowered) query, per `_on_search`? -/
def songMatches (q : List Char) (s : Song) : Bool :=
  containsSub q (pyLower s.title) || containsSub q (pyLower s.artist) ||
    containsSub q (pyLower s.album)

/-- `_on_search(text)`. -/
def onSearch (st : AppState) (text : List Char) : Out :=
  let t := pyLower (pyStrip text)
  if t = [] then
    ⟨{ st with searchClearVisible := false, searchView := SearchView.prompt }, [], []⟩
  else
    let rs := (dictValues st.musicLibrary).filter (songMatches t)
    if rs = [] then
      ⟨{ st with searchClearVisible := true, searchView := SearchView.noResults t }, [], []⟩
    else
      ⟨{ st with searchClearVisible := true, searchView := SearchView.results rs }, [], []⟩

/-- `_show_search_placeholder()` (navigation to the search page). -/
def showSearchPlaceholder (st : AppState) : Out :=
  ⟨{ st with searchView := SearchView.prompt }, [], []⟩

/-- `_upload_song()` after the file dialog was accepted: `title` is the file
base name, `audioLoc` the backend-resolvable locator, `year` the current year. -/
def uploadSong (st : AppState) (title audioLoc : List Char) (year : Int) : Out :=
  let newId := maxKey st.musicLibrary + 1
  let song : Song :=
    { id := newId, title := title, artist := "Local File".toList,
      album := "Uploads".toList, image := [], audio := audioLoc,
      duration := [], genre := [], year := year, liked := false }
  playSong { st with musicLibrary := dictInsert st.musicLibrary newId song } newId

/-- `_create_playlist()`: `ok` is the dialog result, `ts` the timestamp id. -/
def createPlaylist (st : AppState) (ok : Bool) (name : List Char) (ts : Int) : Out :=
  if ok = false ∨ pyStrip name = [] then ⟨st, [], []⟩
  else
    ⟨{ st with userPlaylists := st.userPlaylists ++ [⟨ts, pyStrip name, [], []⟩] }, [], []⟩

/- ---------- Initial state ---------- -/

/-- The four demo tracks seeded by `_load_library`. -/
def demoSong1 : Song :=
  { id := 1, title := "Night Vibes".toList, artist := "Chill Beats".toList,
    album := "Ambient Collection".toList,
    image := "https://i.scdn.co/image/ab67616d0000b2736dafe7cc3b0811b46c7f6617".toList,
    audio := "https://www.soundjay.com/misc/sounds/bell-ringing-05.wav".toList,
    duration := "3:45".toList, genre := "Ambient".toList, year := 2024, liked := false }

def demoSong2 : Song :=
  { id := 2, title := "Pop Energy".toList, artist := "Pop Mix".toList,
    album := "Hits 2024".toList,
    image := "https://i.scdn.co/image/ab67616d0000b27346eb72bcf13c7b82cf67d3f8".toList,
    audio := "https://www.soundjay.com/misc/sounds/bell-ringing-05.wav".toList,
    duration := "2:30".toList, genre := "Pop".toList, year := 2024, liked := false }

def demoSong3 : Song :=
  { id := 3, title := "Rock Classics".toList, artist := "Rock Legends".toList,
    album := "Greatest Hits".toList,
    image := "https://i.scdn.co/image/ab67616d0000b273d911c299fbb92c28e9a99217".toList,
    audio := "https://www.soundjay.com/misc/sounds/bell-ringing-05.wav".toList,
    duration := "4:12".toList, genre := "Rock".toList, year := 2024, liked := false }

def demoSong4 : Song :=
  { id := 4, title := "Lofi Chill".toList, artist := "Study Vibes".toList,
    album := "Focus Music".toList,
    image := "https://i.scdn.co/image/ab67616d0000b273f76b3f8afcd46e3f9ec99438".toList,
    audio := "https://www.soundjay.com/misc/sounds/bell-ringing-05.wav".toList,
    duration := "3:20".toList, genre := "Lofi".toList, year := 2024, liked := false }

/-- `_load_library`: the demo songs inserted by id. -/
def initLibrary : List (Int × Song) :=
  [demoSong1, demoSong2, demoSong3, demoSong4].foldl (fun d s => dictInsert d s.id s) []

/-- The state right after `VibeBeatApp.__init__`; `backend` records whether
the multimedia backend is available. -/
def initState (backend : Bool) : AppState :=
  { musicLibrary := initLibrary, playlist := [], currentIndex := -1,
    isShuffled := false, isRepeated := false, likedSongs := ∅, userPlaylists := [],
    playerPresent := backend, playerState := PState.stopped,
    playerVolume := 70, sliderVolume := 70, prevVol := none,
    seekingActive := false, likeChecked := false, likeHeart := false,
    playBtnPause := false, muteIcon := MuteIcon.normal,
    trackTitle := "Select a song".toList, trackArtist := "VibeBeat".toList,
    searchView := SearchView.prompt, searchClearVisible := true,
    currentTimeLabel := "0:00".toList, totalTimeLabel := "0:00".toList }

/-- States reachable from initialization through the public operations. -/
inductive Reachable : AppState → Prop where
  | init : ∀ b, Reachable (initState b)
  | playSong : ∀ st songId, Reachable st → Reachable (playSong st songId).state
  | togglePlay : ∀ st, Reachable st → Reachable (togglePlay st).state
  | prevOp : ∀ st, Reachable st → Reachable (prevOp st).state
  | nextOp : ∀ st, Reachable st → Reachable (nextOp st).state
  | toggleShuffle : ∀ st, Reachable st → Reachable (toggleShuffle st).state
  | toggleRepeat : ∀ st, Reachable st → Reachable (toggleRepeat st).state
  | toggleLike : ∀ st, Reachable st → Reachable (toggleLike st).state
  | setSliderValue : ∀ st v, Reachable st → Reachable (setSliderValue st v).state
  | toggleMute : ∀ st, Reachable st → Reachable (toggleMute st).state
  | onPositionChanged : ∀ st pos, Reachable st → Reachable (onPositionChanged st pos).state
  | onDurationChanged : ∀ st dur, Reachable st → Reachable (onDurationChanged st dur).state
  | onPlayState : ∀ st s, Reachable st → Reachable (onPlayState st s).state
  | onMediaStatus : ∀ st status, Reachable st → Reachable (onMediaStatus st status).state
  | seekingOp : ∀ st a, Reachable st → Reachable (seekingOp st a).state
  | seekPosition : ∀ st v d, Reachable st → Reachable (seekPosition st v d).state
  | onSearch : ∀ st text, Reachable st → Reachable (onSearch st text).state
  | showSearchPlaceholder : ∀ st, Reachable st → Reachable (showSearchPlaceholder st).state
  | uploadSong : ∀ st t a y, Reachable st → Reachable (uploadSong st t a y).state
  | createPlaylist : ∀ st ok n ts, Reachable st → Reachable (createPlaylist st ok n ts).state

/-- The spec's `hasPrevious()` (the `_prev` guard). -/
def hasPreviousB (st : AppState) : Bool :=
  decide (0 < st.currentIndex)

/-- The spec's `hasNext()` (the `_next` guard). -/
def hasNextB (st : AppState) : Bool :=
  decide (st.currentIndex < (st.playlist.length : Int) - 1)

/-- The queue/cursor invariant of the spec. -/
def cursorInv (st : AppState) : Prop :=
  (st.playlist = [] ↔ st.currentIndex = -1) ∧
  (st.playlist ≠ [] → 0 ≤ st.currentIndex ∧ st.currentIndex < st.playlist.length)

/-- The stronger reachable-state invariant: the queue never holds more than
one song, and the cursor is 0 exactly when it is non-empty. -/
def queueCollapsed (st : AppState) : Prop :=
  st.playlist.length ≤ 1 ∧ (st.playlist = [] ↔ st.currentIndex = -1) ∧
  (st.playlist ≠ [] → st.currentIndex = 0)

/-- The volume value `_toggle_mute` reads: the player volume when a backend
is present, the slider value otherwise. -/
def currentVolume (st : AppState) : Int :=
  if st.playerPresent then st.playerVolume else st.sliderVolume

/-- The queue-relevant part of a state. -/
def queueOf (st : AppState) : List Song × Int :=
  (st.playlist, st.currentIndex)

/-- Concrete state with song 1 selected and playing, used to instantiate the
general theorems. -/
def statePlaying1 : AppState :=
  (playSong (initState true) 1).state

/- ---------- Helper lemmas ---------- -/

theorem pyLower_eq_nil {l : List Char} : pyLower l = [] ↔ l = [] := by
  simp [pyLower]

theorem pyStrip_eq_nil {l : List Char} :
    pyStrip l = [] ↔ ∀ c ∈ l, pySpace c = true := by
  unfold pyStrip
  rw [List.reverse_eq_nil_iff, List.dropWhile_eq_nil_iff]
  constructor
  · intro h c hc
    rw [← List.takeWhile_append_dropWhile (p := pySpace) (l := l)] at hc
    rcases List.mem_append.mp hc with h1 | h2
    · exact List.mem_takeWhile_imp h1
    · exact h c (List.mem_reverse.mpr h2)
  · intro h x hx
    have h3 : l.dropWhile pySpace = [] := List.dropWhile_eq_nil_iff.mpr h
    rw [h3] at hx
    simp at hx

theorem dictGet_dictInsert_self (d : List (Int × Song)) (k : Int) (v : Song) :
    dictGet (dictInsert d k v) k = some v := by
  induction d with
  | nil => simp [dictInsert, dictGet]
  | cons p t ih =>
    obtain ⟨k2, v2⟩ := p
    by_cases hk : k2 = k
    · simp [dictInsert, dictGet, hk]
    · simp [dictInsert, dictGet, hk, ih]

theorem playSong_queue (st : AppState) (songId : Int) :
    queueOf (playSong st songId).state = queueOf st ∨
    ∃ song, dictGet st.musicLibrary songId = some song ∧
      (playSong st songId).state.playlist = [song] ∧
      (playSong st songId).state.currentIndex = 0 := by
  unfold playSong
  cases h : dictGet st.musicLibrary songId with
  | none => left; rfl
  | some song =>
    right
    refine ⟨song, rfl, ?_⟩
    by_cases hp : st.playerPresent <;> simp [hp]

theorem togglePlay_queue (st : AppState) : queueOf (togglePlay st).state = queueOf st := by
  unfold togglePlay
  split
  · rfl
  · split <;> rfl

theorem toggleShuffle_queue (st : AppState) :
    queueOf (toggleShuffle st).state = queueOf st := rfl

theorem toggleRepeat_queue (st : AppState) :
    queueOf (toggleRepeat st).state = queueOf st := rfl

theorem toggleLike_queue (st : AppState) : queueOf (toggleLike st).state = queueOf st := by
  unfold toggleLike
  split
  · rfl
  · split
    · rfl
    · split <;> rfl

theorem setVolumeHandler_queue (st : AppState) (v : Int) :
    queueOf (setVolumeHandler st v).state = queueOf st := by
  unfold setVolumeHandler
  split <;> rfl

theorem setSliderValue_queue (st : AppState) (v : Int) :
    queueOf (setSliderValue st v).state = queueOf st := by
  unfold setSliderValue
  dsimp only
  split
  · rfl
  · exact setVolumeHandler_queue _ _

theorem toggleMute_queue (st : AppState) : queueOf (toggleMute st).state = queueOf st := by
  unfold toggleMute
  dsimp only
  split
  · split
    · exact setSliderValue_queue _ _
    · exact setSliderValue_queue _ _
  · split
    · exact setSliderValue_queue _ _
    · exact setSliderValue_queue _ _

theorem onPositionChanged_queue (st : AppState) (pos : Int) :
    queueOf (onPositionChanged st pos).state = queueOf st := rfl

theorem onDurationChanged_queue (st : AppState) (dur : Int) :
    queueOf (onDurationChanged st dur).state = queueOf st := rfl

theorem onPlayState_queue (st : AppState) (s : PState) :
    queueOf (onPlayState st s).state = queueOf st := rfl

theorem onMediaStatus_queue (st : AppState) (status : MediaStatus) :
    queueOf (onMediaStatus st status).state = queueOf st := by
  unfold onMediaStatus
  split
  · rfl
  · split <;> rfl

theorem seekingOp_queue (st : AppState) (a : Bool) :
    queueOf (seekingOp st a).state = queueOf st := rfl

theorem seekPosition_queue (st : AppState) (v d : Int) :
    queueOf (seekPosition st v d).state = queueOf st := by
  unfold seekPosition
  split <;> rfl

theorem onSearch_queue (st : AppState) (text : List Char) :
    queueOf (onSearch st text).state = queueOf st := by
  unfold onSearch
  dsimp only
  split
  · rfl
  · split <;> rfl

theorem showSearchPlaceholder_queue (st : AppState) :
    queueOf (showSearchPlaceholder st).state = queueOf st := rfl

theorem createPlaylist_queue (st : AppState) (ok : Bool) (n : List Char) (ts : Int) :
    queueOf (createPlaylist st ok n ts).state = queueOf st := by
  unfold createPlaylist
  split <;> rfl

theorem cursorInv_congr {st1 st2 : AppState} (h : queueOf st2 = queueOf st1)
    (hinv : cursorInv st1) : cursorInv st2 := by
  have hp : st2.playlist = st1.playlist := congrArg Prod.fst h
  have hc : st2.currentIndex = st1.currentIndex := congrArg Prod.snd h
  unfold cursorInv at hinv ⊢
  rw [hp, hc]
  exact hinv

theorem queueCollapsed_congr {st1 st2 : AppState} (h : queueOf st2 = queueOf st1)
    (hinv : queueCollapsed st1) : queueCollapsed st2 := by
  have hp : st2.playlist = st1.playlist := congrArg Prod.fst h
  have hc : st2.currentIndex = st1.currentIndex := congrArg Prod.snd h
  unfold queueCollapsed at hinv ⊢
  rw [hp, hc]
  exact hinv

theorem playSong_cursorInv {st : AppState} (songId : Int) (h : cursorInv st) :
    cursorInv (playSong st songId).state := by
  rcases playSong_queue st songId with hq | ⟨song, _, hpl, hci⟩
  · exact cursorInv_congr hq h
  · constructor
    · rw [hpl, hci]
      constructor <;> intro hx <;> simp at hx
    · intro _
      rw [hpl, hci]
      constructor <;> simp

theorem playSong_collapsed {st : AppState} (songId : Int) (h : queueCollapsed st) :
    queueCollapsed (playSong st songId).state := by
  rcases playSong_queue st songId with hq | ⟨song, _, hpl, hci⟩
  · exact queueCollapsed_congr hq h
  · refine ⟨?_, ?_, ?_⟩
    · rw [hpl]; simp
    · rw [hpl, hci]
      constructor <;> intro hx <;> simp at hx
    · intro _
      rw [hci]

theorem prevOp_eq_pos {st : AppState} (h : 0 < st.currentIndex) :
    prevOp st =
      match pyGet st.playlist (st.currentIndex - 1) with
      | some song => playSong { st with currentIndex := st.currentIndex - 1 } song.id
      | none => ⟨{ st with currentIndex := st.currentIndex - 1 }, [], []⟩ := by
  unfold prevOp
  rw [if_pos h]

theorem prevOp_eq_neg {st : AppState} (h : ¬ 0 < st.currentIndex) :
    prevOp st = ⟨st, [], []⟩ := by
  unfold prevOp
  rw [if_neg h]

theorem nextOp_eq_pos {st : AppState} (h : st.currentIndex < (st.playlist.length : Int) - 1) :
    nextOp st =
      match pyGet st.playlist (st.currentIndex + 1) with
      | some song => playSong { st with currentIndex := st.currentIndex + 1 } song.id
      | none => ⟨{ st with currentIndex := st.currentIndex + 1 }, [], []⟩ := by
  unfold nextOp
  rw [if_pos h]

theorem nextOp_eq_neg {st : AppState} (h : ¬ st.currentIndex < (st.playlist.length : Int) - 1) :
    nextOp st = ⟨st, [], []⟩ := by
  unfold nextOp
  rw [if_neg h]

theorem prevOp_cursorInv {st : AppState} (h : cursorInv st) :
    cursorInv (prevOp st).state := by
  by_cases hguard : 0 < st.currentIndex
  · rw [prevOp_eq_pos hguard]
    have hne : st.playlist ≠ [] := by
      intro he
      have := h.1.mp he
      omega
    have hb := h.2 hne
    have h1 : cursorInv { st with currentIndex := st.currentIndex - 1 } := by
      constructor
      · constructor
        · intro he; exact absurd he hne
        · intro hc; simp at hc; omega
      · intro _
        simp
        omega
    cases hs : pyGet st.playlist (st.currentIndex - 1) with
    | some song => exact playSong_cursorInv song.id h1
    | none => exact h1
  · rw [prevOp_eq_neg hguard]
    exact h

theorem nextOp_cursorInv {st : AppState} (h : cursorInv st) :
    cursorInv (nextOp st).state := by
  by_cases hguard : st.currentIndex < (st.playlist.length : Int) - 1
  · rw [nextOp_eq_pos hguard]
    have hne : st.playlist ≠ [] := by
      intro he
      have h1 := h.1.mp he
      rw [he] at hguard
      simp at hguard
      omega
    have hb := h.2 hne
    have h1 : cursorInv { st with currentIndex := st.currentIndex + 1 } := by
      constructor
      · constructor
        · intro he; exact absurd he hne
        · intro hc; simp at hc; omega
      · intro _
        simp
        omega
    cases hs : pyGet st.playlist (st.currentIndex + 1) with
    | some song => exact playSong_cursorInv song.id h1
    | none => exact h1
  · rw [nextOp_eq_neg hguard]
    exact h

theorem uploadSong_cursorInv {st : AppState} (t a : List Char) (y : Int)
    (h : cursorInv st) : cursorInv (uploadSong st t a y).state := by
  unfold uploadSong
  exact playSong_cursorInv _ h

theorem prevOp_noop {st : AppState} (h : queueCollapsed st) :
    prevOp st = ⟨st, [], []⟩ := by
  apply prevOp_eq_neg
  by_cases he : st.playlist = []
  · have := h.2.1.mp he
    omega
  · have := h.2.2 he
    omega

theorem nextOp_noop {st : AppState} (h : queueCollapsed st) :
    nextOp st = ⟨st, [], []⟩ := by
  apply nextOp_eq_neg
  by_cases he : st.playlist = []
  · have h1 := h.2.1.mp he
    have h2 : st.playlist.length = 0 := by rw [he]; rfl
    omega
  · have h1 := h.2.2 he
    have h2 := h.1
    omega

theorem uploadSong_collapsed {st : AppState} (t a : List Char) (y : Int)
    (h : queueCollapsed st) : queueCollapsed (uploadSong st t a y).state := by
  unfold uploadSong
  exact playSong_collapsed _ ⟨h.1, h.2.1, h.2.2⟩

theorem initState_collapsed (b : Bool) : queueCollapsed (initState b) := by
  unfold queueCollapsed
  refine ⟨?_, ?_, ?_⟩ <;> simp [initState]

theorem reachable_collapsed {st : AppState} (h : Reachable st) : queueCollapsed st := by
  induction h with
  | init b => exact initState_collapsed b
  | playSong st songId _ ih => exact playSong_collapsed songId ih
  | togglePlay st _ ih => exact queueCollapsed_congr (togglePlay_queue st) ih
  | prevOp st _ ih => rw [prevOp_noop ih]; exact ih
  | nextOp st _ ih => rw [nextOp_noop ih]; exact ih
  | toggleShuffle st _ ih => exact queueCollapsed_congr (toggleShuffle_queue st) ih
  | toggleRepeat st _ ih => exact queueCollapsed_congr (toggleRepeat_queue st) ih
  | toggleLike st _ ih => exact queueCollapsed_congr (toggleLike_queue st) ih
  | setSliderValue st v _ ih => exact queueCollapsed_congr (setSliderValue_queue st v) ih
  | toggleMute st _ ih => exact queueCollapsed_congr (toggleMute_queue st) ih
  | onPositionChanged st pos _ ih => exact queueCollapsed_congr (onPositionChanged_queue st pos) ih
  | onDurationChanged st dur _ ih => exact queueCollapsed_congr (onDurationChanged_queue st dur) ih
  | onPlayState st s _ ih => exact queueCollapsed_congr (onPlayState_queue st s) ih
  | onMediaStatus st status _ ih => exact queueCollapsed_congr (onMediaStatus_queue st status) ih
  | seekingOp st a _ ih => exact queueCollapsed_congr (seekingOp_queue st a) ih
  | seekPosition st v d _ ih => exact queueCollapsed_congr (seekPosition_queue st v d) ih
  | onSearch st text _ ih => exact queueCollapsed_congr (onSearch_queue st text) ih
  | showSearchPlaceholder st _ ih => exact queueCollapsed_congr (showSearchPlaceholder_queue st) ih
  | uploadSong st t a y _ ih => exact uploadSong_collapsed t a y ih
  | createPlaylist st ok n ts _ ih => exact queueCollapsed_congr (createPlaylist_queue st ok n ts) ih

theorem setSliderValue_effect (st : AppState) (value : Int) :
    (setSliderValue st value).state.playerPresent = st.playerPresent ∧
    (setSliderValue st value).state.prevVol = st.prevVol ∧
    (setSliderValue st value).state.sliderVolume = max 0 (min 100 value) ∧
    ((setSliderValue st value).state.playerVolume = max 0 (min 100 value) ∨
     (setSliderValue st value).state.playerVolume = st.playerVolume) := by
  unfold setSliderValue setVolumeHandler
  dsimp only
  by_cases h : max 0 (min 100 value) = st.sliderVolume
  · rw [if_pos h]
    exact ⟨rfl, rfl, h.symm, Or.inr rfl⟩
  · rw [if_neg h]
    by_cases hp : st.playerPresent
    · rw [if_pos hp]
      refine ⟨rfl, rfl, rfl, Or.inl ?_⟩
      dsimp only
      omega
    · rw [if_neg hp]
      exact ⟨rfl, rfl, rfl, Or.inr rfl⟩

theorem currentVolume_eq_player {st : AppState} (h : st.playerPresent = true) :
    currentVolume st = st.playerVolume := by
  unfold currentVolume
  rw [h]
  simp

theorem currentVolume_eq_slider {st : AppState} (h : st.playerPresent = false) :
    currentVolume st = st.sliderVolume := by
  unfold currentVolume
  rw [h]
  simp

theorem toggleMute_effect (st : AppState) :
    (toggleMute st).state.playerPresent = st.playerPresent ∧
    (currentVolume st ≠ 0 →
       currentVolume (toggleMute st).state = 0 ∧
       (toggleMute st).state.prevVol = some (currentVolume st)) ∧
    (currentVolume st = 0 →
       currentVolume (toggleMute st).state = max 0 (min 100 (st.prevVol.getD 70)) ∧
       (toggleMute st).state.prevVol = st.prevVol) := by
  unfold toggleMute
  dsimp only
  by_cases hp : st.playerPresent = false
  · rw [if_pos hp]
    have hcv : currentVolume st = st.sliderVolume := currentVolume_eq_slider hp
    by_cases hv : st.sliderVolume = 0
    · rw [if_pos hv]
      obtain ⟨e1, e2, e3, e4⟩ := setSliderValue_effect st (st.prevVol.getD 70)
      refine ⟨e1, fun hne => absurd (hcv.trans hv) hne, fun _ => ⟨?_, e2⟩⟩
      rw [currentVolume_eq_slider (e1.trans hp), e3]
    · rw [if_neg hv]
      obtain ⟨e1, e2, e3, e4⟩ :=
        setSliderValue_effect { st with prevVol := some st.sliderVolume } 0
      dsimp only at e1 e2 e3 e4
      refine ⟨e1, fun _ => ⟨?_, ?_⟩, fun h0 => absurd (hcv.symm.trans h0) hv⟩
      · rw [currentVolume_eq_slider (e1.trans hp), e3]
        decide
      · rw [e2, hcv]
  · rw [if_neg hp]
    have hp2 : st.playerPresent = true := by
      revert hp
      cases st.playerPresent <;> simp
    have hcv : currentVolume st = st.playerVolume := currentVolume_eq_player hp2
    by_cases hv : st.playerVolume = 0
    · rw [if_pos hv]
      obtain ⟨e1, e2, e3, e4⟩ :=
        setSliderValue_effect
          { st with playerVolume := max 0 (min 100 (st.prevVol.getD 70)) }
          (st.prevVol.getD 70)
      dsimp only at e1 e2 e3 e4
      refine ⟨e1, fun hne => absurd (hcv.trans hv) hne, fun _ => ⟨?_, e2⟩⟩
      rw [currentVolume_eq_player (e1.trans hp2)]
      rcases e4 with e4 | e4 <;> rw [e4]
    · rw [if_neg hv]
      obtain ⟨e1, e2, e3, e4⟩ :=
        setSliderValue_effect { st with prevVol := some st.playerVolume, playerVolume := 0 } 0
      dsimp only at e1 e2 e3 e4
      refine ⟨e1, fun _ => ⟨?_, ?_⟩, fun h0 => absurd (hcv.symm.trans h0) hv⟩
      · rw [currentVolume_eq_player (e1.trans hp2)]
        rcases e4 with e4 | e4 <;> rw [e4]
        decide
      · rw [e2, hcv]

/- ---------- Claim theorems ---------- -/

/-- Claim C1: for a song id present in the catalog, selectAndPlay
(code `_play_song`) replaces the queue with exactly that song, sets the
cursor to 0, enters the loaded-playing state (issuing load + play to the
backend when one is present, otherwise surfacing only the non-fatal notice
with the same queue/state update), and sets the like indicator to whether
the id is in the liked set. -/
theorem claim1_play_song (st : AppState) (songId : Int) (song : Song)
    (h : dictGet st.musicLibrary songId = some song) :
    (playSong st songId).state.playlist = [song] ∧
    (playSong st songId).state.currentIndex = 0 ∧
    (playSong st songId).state.playBtnPause = true ∧
    ((playSong st songId).state.likeChecked = true ↔ songId ∈ st.likedSongs) ∧
    (st.playerPresent = true →
      (playSong st songId).state.playerState = PState.playing ∧
      (playSong st songId).cmds = [Cmd.setMedia song.audio, Cmd.play] ∧
      (playSong st songId).notices = []) ∧
    (st.playerPresent = false →
      (playSong st songId).cmds = [] ∧
      (playSong st songId).notices = [Notice.audioUnavailable]) := by
  unfold playSong
  rw [h]
  dsimp only
  cases hp : st.playerPresent <;> simp [hp]

/-- Witness for C1: playing song 1 from the initial state with a backend. -/
theorem claim1_play_song_witness :
    (playSong (initState true) 1).state.playlist = [demoSong1] ∧
    (playSong (initState true) 1).state.currentIndex = 0 ∧
    (playSong (initState true) 1).cmds = [Cmd.setMedia demoSong1.audio, Cmd.play] := by
  have h := claim1_play_song (initState true) 1 demoSong1 rfl
  exact ⟨h.1, h.2.1, (h.2.2.2.2.1 rfl).2.1⟩

/-- Claim C2: the queue invariant (cursor in range when non-empty; cursor -1
iff empty) holds in the initial state and is preserved by every public
controller operation. -/
theorem claim2_queue_invariant :
    (∀ b, cursorInv (initState b)) ∧
    ∀ st, cursorInv st →
      (∀ songId, cursorInv (playSong st songId).state) ∧
      cursorInv (prevOp st).state ∧
      cursorInv (nextOp st).state ∧
      cursorInv (toggleLike st).state ∧
      cursorInv (togglePlay st).state ∧
      cursorInv (toggleShuffle st).state ∧
      cursorInv (toggleRepeat st).state ∧
      (∀ v, cursorInv (setSliderValue st v).state) ∧
      cursorInv (toggleMute st).state ∧
      (∀ pos, cursorInv (onPositionChanged st pos).state) ∧
      (∀ dur, cursorInv (onDurationChanged st dur).state) ∧
      (∀ s, cursorInv (onPlayState st s).state) ∧
      (∀ status, cursorInv (onMediaStatus st status).state) ∧
      (∀ a, cursorInv (seekingOp st a).state) ∧
      (∀ v d, cursorInv (seekPosition st v d).state) ∧
      (∀ text, cursorInv (onSearch st text).state) ∧
      cursorInv (showSearchPlaceholder st).state ∧
      (∀ t a y, cursorInv (uploadSong st t a y).state) ∧
      (∀ ok n ts, cursorInv (createPlaylist st ok n ts).state) := by
  constructor
  · intro b
    unfold cursorInv
    simp [initState]
  · intro st h
    refine ⟨fun songId => playSong_cursorInv songId h,
      prevOp_cursorInv h, nextOp_cursorInv h,
      cursorInv_congr (toggleLike_queue st) h,
      cursorInv_congr (togglePlay_queue st) h,
      cursorInv_congr (toggleShuffle_queue st) h,
      cursorInv_congr (toggleRepeat_queue st) h,
      fun v => cursorInv_congr (setSliderValue_queue st v) h,
      cursorInv_congr (toggleMute_queue st) h,
      fun pos => cursorInv_congr (onPositionChanged_queue st pos) h,
      fun dur => cursorInv_congr (onDurationChanged_queue st dur) h,
      fun s => cursorInv_congr (onPlayState_queue st s) h,
      fun status => cursorInv_congr (onMediaStatus_queue st status) h,
      fun a => cursorInv_congr (seekingOp_queue st a) h,
      fun v d => cursorInv_congr (seekPosition_queue st v d) h,
      fun text => cursorInv_congr (onSearch_queue st text) h,
      cursorInv_congr (showSearchPlaceholder_queue st) h,
      fun t a y => uploadSong_cursorInv t a y h,
      fun ok n ts => cursorInv_congr (createPlaylist_queue st ok n ts) h⟩

/-- Witness for C2: the invariant after playing song 2 from the initial state. -/
theorem claim2_queue_invariant_witness :
    cursorInv (playSong (initState true) 2).state :=
  (claim2_queue_invariant.2 (initState true) (by unfold cursorInv; decide)).1 2

/-- Claim C3: toggling mute twice restores the starting volume exactly, for
every starting volume in the 0..100 range; a first toggle from nonzero volume
stores the volume in the memo and mutes, a first toggle from zero restores
the memo value (default 70). -/
theorem claim3_toggle_mute_roundtrip (st : AppState)
    (h0 : 0 ≤ currentVolume st) (h1 : currentVolume st ≤ 100)
    (hm : ∀ m, st.prevVol = some m → 0 ≤ m ∧ m ≤ 100) :
    currentVolume (toggleMute (toggleMute st).state).state = currentVolume st ∧
    (currentVolume st ≠ 0 →
      currentVolume (toggleMute st).state = 0 ∧
      (toggleMute st).state.prevVol = some (currentVolume st)) ∧
    (currentVolume st = 0 →
      currentVolume (toggleMute st).state = st.prevVol.getD 70 ∧
      currentVolume (toggleMute (toggleMute st).state).state = 0) := by
  obtain ⟨a1, a2, a3⟩ := toggleMute_effect st
  have hm2 : max 0 (min 100 (st.prevVol.getD 70)) = st.prevVol.getD 70 := by
    cases hpv : st.prevVol with
    | none => decide
    | some m =>
      obtain ⟨hm0, hm1⟩ := hm m hpv
      simp only [hpv, Option.getD_some]
      rw [min_eq_right hm1, max_eq_right hm0]
  by_cases hv : currentVolume st = 0
  · obtain ⟨b1, b2⟩ := a3 hv
    obtain ⟨c1, c2, c3⟩ := toggleMute_effect (toggleMute st).state
    by_cases hz : currentVolume (toggleMute st).state = 0
    · obtain ⟨d1, d2⟩ := c3 hz
      have hfin : currentVolume (toggleMute (toggleMute st).state).state = 0 := by
        rw [d1, b2, hm2, ← hm2, ← b1, hz]
      exact ⟨by rw [hfin, hv], fun hne => absurd hv hne,
        fun _ => ⟨by rw [b1, hm2], hfin⟩⟩
    · obtain ⟨d1, d2⟩ := c2 hz
      exact ⟨by rw [d1, hv], fun hne => absurd hv hne, fun _ => ⟨by rw [b1, hm2], d1⟩⟩
  · obtain ⟨b1, b2⟩ := a2 hv
    obtain ⟨c1, c2, c3⟩ := toggleMute_effect (toggleMute st).state
    obtain ⟨d1, d2⟩ := c3 b1
    have e : (toggleMute st).state.prevVol.getD 70 = currentVolume st := by
      rw [b2]
      rfl
    refine ⟨?_, fun _ => ⟨b1, b2⟩, fun hz => absurd hz hv⟩
    rw [d1, e, min_eq_right h1, max_eq_right h0]

/-- Witness for C3 at the initial state (volume 70, memo unset). -/
theorem claim3_toggle_mute_roundtrip_witness :
    currentVolume (toggleMute (toggleMute (initState true)).state).state =
      currentVolume (initState true) :=
  (claim3_toggle_mute_roundtrip (initState true) (by decide) (by decide)
    (fun m hm => absurd hm (by simp [initState]))).1

/-- Claim C4: while a song is current, toggleLike flips membership of its id
in the liked set (leaving the queue and cursor untouched), applying it twice
restores the original membership, and toggleLike is a no-op when nothing is
current. -/
theorem claim4_toggle_like (st : AppState) (song : Song)
    (h1 : ¬ (st.currentIndex < 0 ∨ st.playlist = []))
    (h2 : pyGet st.playlist st.currentIndex = some song) :
    (song.id ∈ (toggleLike st).state.likedSongs ↔ song.id ∉ st.likedSongs) ∧
    ((toggleLike st).state.playlist = st.playlist ∧
     (toggleLike st).state.currentIndex = st.currentIndex) ∧
    (song.id ∈ (toggleLike (toggleLike st).state).state.likedSongs ↔
      song.id ∈ st.likedSongs) ∧
    (∀ st2, st2.currentIndex < 0 ∨ st2.playlist = [] →
      toggleLike st2 = ⟨st2, [], []⟩) := by
  have hnoop : ∀ st2 : AppState, st2.currentIndex < 0 ∨ st2.playlist = [] →
      toggleLike st2 = ⟨st2, [], []⟩ := by
    intro st2 hg
    unfold toggleLike
    rw [if_pos hg]
  by_cases hm : song.id ∈ st.likedSongs
  · have e1 : toggleLike st =
        ⟨{ st with likedSongs := st.likedSongs.erase song.id, likeHeart := false },
          [], []⟩ := by
      unfold toggleLike
      rw [if_neg h1, h2]
      dsimp only
      rw [if_pos hm]
    have e2 : toggleLike (toggleLike st).state =
        ⟨{ (toggleLike st).state with
             likedSongs := insert song.id ((toggleLike st).state.likedSongs)
             likeHeart := true },
          [], []⟩ := by
      rw [e1]
      dsimp only
      unfold toggleLike
      dsimp only
      rw [if_neg h1, h2]
      dsimp only
      rw [if_neg (Finset.not_mem_erase song.id st.likedSongs)]
    refine ⟨?_, ?_, ?_, hnoop⟩
    · rw [e1]
      simp [hm, Finset.not_mem_erase]
    · rw [e1]
      exact ⟨rfl, rfl⟩
    · rw [e2, e1]
      simp [hm]
  · have e1 : toggleLike st =
        ⟨{ st with likedSongs := insert song.id st.likedSongs, likeHeart := true },
          [], []⟩ := by
      unfold toggleLike
      rw [if_neg h1, h2]
      dsimp only
      rw [if_neg hm]
    have e2 : toggleLike (toggleLike st).state =
        ⟨{ (toggleLike st).state with
             likedSongs := ((toggleLike st).state.likedSongs).erase song.id
             likeHeart := false },
          [], []⟩ := by
      rw [e1]
      dsimp only
      unfold toggleLike
      dsimp only
      rw [if_neg h1, h2]
      dsimp only
      rw [if_pos (Finset.mem_insert_self song.id st.likedSongs)]
    refine ⟨?_, ?_, ?_, hnoop⟩
    · rw [e1]
      simp [hm]
    · rw [e1]
      exact ⟨rfl, rfl⟩
    · rw [e2, e1]
      simp [hm, Finset.not_mem_erase]

/-- Witness for C4: toggling like for song 1 while it is current. -/
theorem claim4_toggle_like_witness :
    demoSong1.id ∈ (toggleLike statePlaying1).state.likedSongs ↔
      demoSong1.id ∉ statePlaying1.likedSongs :=
  (claim4_toggle_like statePlaying1 demoSong1 (by decide) rfl).1

/-- Claim C5: selectAndPlay of an id absent from the catalog is an atomic
no-op: the state (queue, cursor, liked set, transport fields) is unchanged,
no backend command is issued and no notice or error is raised. -/
theorem claim5_unknown_id_noop (st : AppState) (songId : Int)
    (h : dictGet st.musicLibrary songId = none) :
    playSong st songId = ⟨st, [], []⟩ := by
  unfold playSong
  rw [h]

/-- Witness for C5: id 99 is not in the demo catalog. -/
theorem claim5_unknown_id_noop_witness :
    playSong (initState true) 99 = ⟨initState true, [], []⟩ :=
  claim5_unknown_id_noop (initState true) 99 (by decide)

/-- Claim C6: skip at the queue boundaries is a silent no-op with no
wraparound (cursor, queue and the whole state unchanged, no command, no
notice); otherwise skip moves the cursor by exactly one and plays the song
now at the cursor (via `_play_song`). -/
theorem claim6_skip_boundaries (st : AppState) :
    (st.currentIndex = 0 → prevOp st = ⟨st, [], []⟩) ∧
    (st.currentIndex = (st.playlist.length : Int) - 1 → nextOp st = ⟨st, [], []⟩) ∧
    (∀ song, 0 < st.currentIndex →
      pyGet st.playlist (st.currentIndex - 1) = some song →
      prevOp st = playSong { st with currentIndex := st.currentIndex - 1 } song.id) ∧
    (∀ song, st.currentIndex < (st.playlist.length : Int) - 1 →
      pyGet st.playlist (st.currentIndex + 1) = some song →
      nextOp st = playSong { st with currentIndex := st.currentIndex + 1 } song.id) := by
  refine ⟨?_, ?_, ?_, ?_⟩
  · intro h
    apply prevOp_eq_neg
    omega
  · intro h
    apply nextOp_eq_neg
    omega
  · intro song hg hs
    rw [prevOp_eq_pos hg, hs]
  · intro song hg hs
    rw [nextOp_eq_pos hg, hs]

/-- Witness for C6: both boundary no-ops at the single-song playing state. -/
theorem claim6_skip_boundaries_witness :
    prevOp statePlaying1 = ⟨statePlaying1, [], []⟩ ∧
    nextOp statePlaying1 = ⟨statePlaying1, [], []⟩ :=
  ⟨(claim6_skip_boundaries statePlaying1).1 rfl,
   (claim6_skip_boundaries statePlaying1).2.1 (by decide)⟩

/-- Claim C7: empty or whitespace-only search text yields the distinguished
prompt sentinel; otherwise the result is exactly the catalog songs, in
catalog insertion order, whose title, artist or album contains the
stripped text case-insensitively, with an empty-results indicator (distinct
from the prompt) when nothing matches. -/
theorem claim7_search (st : AppState) (text : List Char) :
    (pyStrip text = [] ↔ ∀ c ∈ text, pySpace c = true) ∧
    (pyStrip text = [] →
      (onSearch st text).state.searchView = SearchView.prompt) ∧
    (pyStrip text ≠ [] →
      ((dictValues st.musicLibrary).filter (songMatches (pyLower (pyStrip text))) = [] →
        (onSearch st text).state.searchView =
          SearchView.noResults (pyLower (pyStrip text))) ∧
      ((dictValues st.musicLibrary).filter (songMatches (pyLower (pyStrip text))) ≠ [] →
        (onSearch st text).state.searchView =
          SearchView.results
            ((dictValues st.musicLibrary).filter (songMatches (pyLower (pyStrip text)))))) ∧
    (∀ s, s ∈ (dictValues st.musicLibrary).filter (songMatches (pyLower (pyStrip text))) ↔
      s ∈ dictValues st.musicLibrary ∧
        songMatches (pyLower (pyStrip text)) s = true) ∧
    List.Sublist
      ((dictValues st.musicLibrary).filter (songMatches (pyLower (pyStrip text))))
      (dictValues st.musicLibrary) ∧
    (∀ q l, SearchView.prompt ≠ SearchView.noResults q ∧
      SearchView.prompt ≠ SearchView.results l ∧
      SearchView.noResults q ≠ SearchView.results l) := by
  refine ⟨pyStrip_eq_nil, ?_, ?_, ?_, ?_, ?_⟩
  · intro h
    have ht : pyLower (pyStrip text) = [] := by
      rw [h]
      rfl
    unfold onSearch
    dsimp only
    rw [if_pos ht]
  · intro h
    have ht : pyLower (pyStrip text) ≠ [] := fun he => h (pyLower_eq_nil.mp he)
    unfold onSearch
    dsimp only
    rw [if_neg ht]
    constructor
    · intro he
      rw [if_pos he]
    · intro he
      rw [if_neg he]
  · intro s
    exact List.mem_filter
  · exact List.filter_sublist _
  · intro q l
    refine ⟨?_, ?_, ?_⟩ <;> intro h <;> exact SearchView.noConfusion h

/-- Witness for C7: whitespace-only text yields the prompt sentinel. -/
theorem claim7_search_witness :
    (onSearch (initState true) [' ']).state.searchView = SearchView.prompt :=
  (claim7_search (initState true) [' ']).2.1 (by decide)

/-- Counterexample to C8: in the initial (Idle) state with a backend present,
togglePlayPause is not a no-op issuing no backend command — the code takes
the not-playing branch unconditionally and issues play, moving the backend
out of the stopped state. -/
theorem claim8_toggle_play_counterexample :
    (togglePlay (initState true)).cmds = [Cmd.play] ∧
    ¬ (togglePlay (initState true)).cmds = [] ∧
    (initState true).playerState = PState.stopped ∧
    (togglePlay (initState true)).state.playerState = PState.playing := by
  refine ⟨rfl, ?_, rfl, rfl⟩
  intro h
  rw [show (togglePlay (initState true)).cmds = [Cmd.play] from rfl] at h
  exact List.noConfusion h

/-- Amended C8: togglePlayPause from the playing state issues pause and moves
to paused; from any non-playing state — including Idle, which the code does
not special-case — it issues play and moves to playing; with no backend it
performs no state change and only surfaces the non-fatal notice. -/
theorem claim8_toggle_play_amended (st : AppState) :
    (st.playerPresent = false →
      togglePlay st = ⟨st, [], [Notice.audioUnavailable]⟩) ∧
    (st.playerPresent = true → st.playerState = PState.playing →
      togglePlay st = ⟨{ st with playerState := PState.paused }, [Cmd.pause], []⟩) ∧
    (st.playerPresent = true → st.playerState ≠ PState.playing →
      togglePlay st = ⟨{ st with playerState := PState.playing }, [Cmd.play], []⟩) := by
  refine ⟨?_, ?_, ?_⟩
  · intro hp
    unfold togglePlay
    rw [if_pos hp]
  · intro hp hs
    unfold togglePlay
    rw [if_neg (by rw [hp]; simp), if_pos hs]
  · intro hp hs
    unfold togglePlay
    rw [if_neg (by rw [hp]; simp), if_neg hs]

/-- Witness for the amended C8: the no-backend branch at the initial state. -/
theorem claim8_toggle_play_amended_witness :
    togglePlay (initState false) = ⟨initState false, [], [Notice.audioUnavailable]⟩ :=
  (claim8_toggle_play_amended (initState false)).1 rfl

/-- Claim C9: the end-of-media callback with repeat on issues exactly
seek-to-0 plus play and leaves queue and cursor unchanged; with repeat off it
issues nothing and leaves the whole state unchanged — it never auto-advances
the queue. -/
theorem claim9_media_ended (st : AppState) :
    (st.playerPresent = true → st.isRepeated = true →
      onMediaStatus st MediaStatus.endOfMedia =
        ⟨{ st with playerState := PState.playing },
          [Cmd.setPosition 0, Cmd.play], []⟩ ∧
      (onMediaStatus st MediaStatus.endOfMedia).state.playlist = st.playlist ∧
      (onMediaStatus st MediaStatus.endOfMedia).state.currentIndex = st.currentIndex) ∧
    (st.isRepeated = false →
      onMediaStatus st MediaStatus.endOfMedia = ⟨st, [], []⟩) := by
  constructor
  · intro hp hr
    have e : onMediaStatus st MediaStatus.endOfMedia =
        ⟨{ st with playerState := PState.playing },
          [Cmd.setPosition 0, Cmd.play], []⟩ := by
      unfold onMediaStatus
      rw [if_neg (by rw [hp]; simp), if_pos ⟨rfl, hr⟩]
    exact ⟨e, by rw [e], by rw [e]⟩
  · intro hr
    unfold onMediaStatus
    by_cases hp : st.playerPresent = false
    · rw [if_pos hp]
    · rw [if_neg hp, if_neg]
      intro hand
      rw [hr] at hand
      exact Bool.noConfusion hand.2

/-- Witness for C9: repeat on after toggling it from the initial state. -/
theorem claim9_media_ended_witness :
    onMediaStatus (toggleRepeat (initState true)).state MediaStatus.endOfMedia =
      ⟨{ (toggleRepeat (initState true)).state with playerState := PState.playing },
        [Cmd.setPosition 0, Cmd.play], []⟩ :=
  ((claim9_media_ended (toggleRepeat (initState true)).state).1 rfl rfl).1

/-- Claim C10: in every reachable state the queue holds at most one song, so
hasPrevious and hasNext are false and both skip directions are complete
no-ops. -/
theorem claim10_queue_collapsed (st : AppState) (h : Reachable st) :
    st.playlist.length ≤ 1 ∧
    hasPreviousB st = false ∧
    hasNextB st = false ∧
    prevOp st = ⟨st, [], []⟩ ∧
    nextOp st = ⟨st, [], []⟩ := by
  have hc := reachable_collapsed h
  refine ⟨hc.1, ?_, ?_, prevOp_noop hc, nextOp_noop hc⟩
  · unfold hasPreviousB
    simp only [decide_eq_false_iff_not]
    by_cases he : st.playlist = []
    · have := hc.2.1.mp he
      omega
    · have := hc.2.2 he
      omega
  · unfold hasNextB
    simp only [decide_eq_false_iff_not]
    by_cases he : st.playlist = []
    · have h1 := hc.2.1.mp he
      have h2 : st.playlist.length = 0 := by rw [he]; rfl
      omega
    · have h1 := hc.2.2 he
      have h2 := hc.1
      omega

/-- Witness for C10 at the initial state. -/
theorem claim10_queue_collapsed_witness :
    hasNextB (initState true) = false ∧
    prevOp (initState true) = ⟨initState true, [], []⟩ := by
  have h := claim10_queue_collapsed (initState true) (Reachable.init true)
  exact ⟨h.2.2.1, h.2.2.2.1⟩

end VibeBeat
